import Mathlib

/-!
Verification development for the request-orchestration layer of the
DesignChat repository (the Model API Manager in
src/services/api/modelApiManager.ts and its collaborators in
src/config/modelsLoader.ts, src/config/models.json and
src/services/model/modelManager.ts).

The TypeScript code is shallowly embedded:
* pure data (StandardResponse, GroupConfig, model descriptors) becomes
  Lean structures;
* the mutable admission ledger (activeRequests / lastRequestTime maps)
  becomes an explicit Ledger record threaded through the functions;
* asynchronous collaborators (the provider adapter, the storage upload,
  the auth check, Date.now, toISOString) become explicit parameters
  giving the outcome of each external interaction;
* a thrown JavaScript Error becomes the error branch of an Except
  carrying the error message;
* the per-item loops of generateMultipleImages /
  generateMultipleImagesStream become structural recursion over the
  list of item indices, and the streaming callbacks (onProgress /
  onComplete / onError) become an emitted event list;
* the concurrent interleaving of several executeRequest calls on the
  single-threaded event loop is modelled separately by a small-step
  transition relation (ConcStep) in which the admission check and the
  counter increment are distinct atomic steps, because in the source
  they are separated by an await boundary
  (await this.waitForServiceAvailability(group) on line 127 resumes as
  a microtask before the increment on line 130 runs).
-/

namespace DesignChat

/-- JavaScript truthiness of an optional string (undefined and the
empty string are falsy); used for checks such as
!modelConfig.config_json?.api_key in modelApiManager.ts. -/
def strTruthy : Option String → Bool
  | none => false
  | some s => s ≠ ""

/-- StandardResponse from src/services/model/baseService.ts: the
normalized outcome of one generation attempt. -/
structure StandardResponse where
  success : Bool
  message : Option String := none
  imageUrl : Option String := none
  error : Option String := none
  text : Option String := none
  createdAt : Option String := none
  deriving DecidableEq, Repr

/-- GroupConfig from src/config/models.types.ts: per-provider-group
admission parameters. -/
structure GroupConfig where
  maxConcurrent : Nat
  cooldownMs : Nat
  deriving DecidableEq, Repr

/-- Model descriptor from src/config/models.json.  Fields the
dispatcher never consults (publishDate, description, demo) are
elided; id, name, category and group are kept. -/
structure ImageModel where
  id : String
  name : String
  category : String
  group : String
  deriving DecidableEq, Repr

/-- config_json of a ModelConfig row (credential payload consulted by
the adapter factories in modelApiManager.ts). -/
structure ConfigJson where
  api_key : Option String := none
  api_secret : Option String := none
  ark_api_key : Option String := none
  deriving DecidableEq, Repr

/-- ModelConfig as consumed by modelApiManager.ts: only the optional
config_json credential payload is read. -/
structure ModelConfig where
  config_json : Option ConfigJson := none
  deriving DecidableEq, Repr

/-- DEFAULT_COUNT constant (modelApiManager.ts line 60). -/
def DEFAULT_COUNT : Nat := 1

/-- JavaScript a || b where a is an optional count (undefined and 0
are falsy), as in request.count || DEFAULT_COUNT. -/
def jsOrNat (a : Option Nat) (b : Nat) : Nat :=
  match a with
  | none => b
  | some n => if n = 0 then b else n

/-- Effective item count of an aggregate batch call:
request.count || DEFAULT_COUNT (modelApiManager.ts line 164). -/
def jsCount (count? : Option Nat) : Nat :=
  jsOrNat count? DEFAULT_COUNT

/-- Effective item count of a stream batch call:
streamRequest.count || request.count || DEFAULT_COUNT
(modelApiManager.ts line 208). -/
def jsCount2 (streamCount? reqCount? : Option Nat) : Nat :=
  jsOrNat streamCount? (jsOrNat reqCount? DEFAULT_COUNT)

/-- Outcome of one storageService.uploadImageFromUrl interaction, as
observed by uploadToStorageIfNeeded: a resolved value with
success && url truthy, a resolved value without (upload failed), or a
thrown exception. -/
inductive UploadOutcome where
  | ok (url : String)
  | failed
  | exn
  deriving DecidableEq, Repr

/-- uploadToStorageIfNeeded (modelApiManager.ts lines 143-157): on a
successful result carrying a truthy image URL, attempt re-hosting;
replace the URL on success, otherwise keep the original URL and
append an explanatory note to the message. -/
def uploadToStorageIfNeeded (upload : String → UploadOutcome)
    (result : StandardResponse) : StandardResponse :=
  match result.imageUrl with
  | some u =>
    if result.success && u ≠ "" then
      match upload u with
      | .ok url =>
        { result with imageUrl := some url,
                      message := some ((result.message.getD "") ++ "（已保存到存储）") }
      | .failed =>
        { result with
            message := some ((result.message.getD "") ++ "（存储上传失败，使用原始链接）") }
      | .exn =>
        { result with
            message := some ((result.message.getD "") ++ "（存储上传异常，使用原始链接）") }
    else result
  | none => result

/-- Admission ledger of the ModelApiManager singleton: the
activeRequests and lastRequestTime maps, keyed by provider group
(modelApiManager.ts lines 69-70).  Counters are integers because the
source applies plain +1 / -1 arithmetic. -/
structure Ledger where
  activeRequests : String → Int
  lastRequestTime : String → Nat

/-- Pointwise update of an integer counter map, as
map.set(group, (map.get(group) || 0) + d). -/
def bumpCounter (f : String → Int) (g : String) (d : Int) : String → Int :=
  fun x => if x = g then f g + d else f x

/-- Pointwise update of the lastRequestTime map. -/
def setTime (f : String → Nat) (g : String) (t : Nat) : String → Nat :=
  fun x => if x = g then t else f x

/-- Observable ledger events of one dispatch, used to state that each
item increments and decrements exactly once and calls the adapter
exactly once. -/
inductive Event where
  | incr (g : String)
  | adapterCall (g : String)
  | decr (g : String)
  deriving DecidableEq, Repr

/-- executeRequest (modelApiManager.ts lines 117-140), sequential
semantics of a single dispatch: check authentication (throwing
AUTH_REQUIRED when it fails, before any ledger mutation), wait for
admission (a pure busy-wait over the ledger, terminating at time
now), increment activeRequests and stamp lastRequestTime, run the
request function, and decrement activeRequests regardless of outcome
(the finally block). -/
def executeRequest (auth : Bool) (g : String) (now : Nat)
    (requestFn : Except String StandardResponse) (st : Ledger) :
    Except String StandardResponse × Ledger × List Event :=
  if auth then
    let afterIncr : Ledger :=
      { activeRequests := bumpCounter st.activeRequests g 1,
        lastRequestTime := setTime st.lastRequestTime g now }
    let afterDecr : Ledger :=
      { afterIncr with
          activeRequests := bumpCounter afterIncr.activeRequests g (-1) }
    (requestFn, afterDecr, [.incr g, .adapterCall g, .decr g])
  else
    (.error "AUTH_REQUIRED", st, [])

/-- Failed per-item result pushed by the catch branches of the batch
loops (modelApiManager.ts lines 179-183 and 228-232). -/
def mkErrorResult (msg ts : String) : StandardResponse :=
  { success := false, error := some msg, createdAt := some ts }

/-- Value of one loop iteration of the batch loops: the per-item
result pushed into results, whether an error was pushed into errors,
the ledger after the iteration and its ledger events. -/
def generateItem (auth : Bool) (g : String)
    (attempt : Except String StandardResponse)
    (upload : String → UploadOutcome) (now : Nat) (ts : String)
    (st : Ledger) : StandardResponse × Bool × Ledger × List Event :=
  match executeRequest auth g now attempt st with
  | (.ok r, st1, tr) =>
    ({ uploadToStorageIfNeeded upload r with createdAt := some ts },
     false, st1, tr)
  | (.error e, st1, tr) => (mkErrorResult e ts, true, st1, tr)

/-- Aggregate metadata of a batch call (modelApiManager.ts lines
37-41). -/
structure GenerationMeta where
  totalRequested : Nat
  successful : Nat
  failed : Nat
  deriving DecidableEq, Repr

/-- GenerationResponse (modelApiManager.ts lines 35-42). -/
structure GenerationResponse where
  results : List StandardResponse
  metadata : GenerationMeta
  deriving DecidableEq, Repr

/-- Loop of generateMultipleImages (modelApiManager.ts lines
168-185), over the list of item indices: returns the results list,
the number of entries pushed into errors, the final ledger and the
ledger events.  attempts i is the outcome of the i-th invocation of
generateFn, uploads i the storage behaviour of the i-th re-hosting,
times i the Date.now at the i-th dispatch and stamps i its
toISOString createdAt stamp. -/
def runBatch (auth : Bool) (g : String)
    (attempts : Nat → Except String StandardResponse)
    (uploads : Nat → String → UploadOutcome)
    (times : Nat → Nat) (stamps : Nat → String) :
    List Nat → Ledger → List StandardResponse × Nat × Ledger × List Event
  | [], st => ([], 0, st, [])
  | i :: rest, st =>
    let step := generateItem auth g (attempts i) (uploads i) (times i) (stamps i) st
    let tail := runBatch auth g attempts uploads times stamps rest step.2.2.1
    (step.1 :: tail.1,
     (if step.2.1 then 1 else 0) + tail.2.1,
     tail.2.2.1,
     step.2.2.2 ++ tail.2.2.2)

/-- generateMultipleImages (modelApiManager.ts lines 159-199):
count = request.count || DEFAULT_COUNT sequential item generations,
each failure absorbed into a per-item failed result, with the
aggregate metadata computed from the results and the errors list. -/
def generateMultipleImages (auth : Bool) (g : String)
    (attempts : Nat → Except String StandardResponse)
    (uploads : Nat → String → UploadOutcome)
    (times : Nat → Nat) (stamps : Nat → String)
    (count? : Option Nat) (st : Ledger) :
    GenerationResponse × Ledger × List Event :=
  let count := jsCount count?
  let run := runBatch auth g attempts uploads times stamps (List.range count) st
  ({ results := run.1,
     metadata :=
       { totalRequested := count,
         successful := (run.1.filter (fun r => r.success)).length,
         failed := run.2.1 } },
   run.2.2.1, run.2.2.2)

/-- Streaming callbacks recorded as an ordered event list: each
onProgress(result, index, total), the final onComplete(response), or
an onError(message). -/
inductive StreamEvent where
  | progress (r : StandardResponse) (index total : Nat)
  | complete (resp : GenerationResponse)
  | error (msg : String)
  deriving DecidableEq, Repr

/-- Loop of generateMultipleImagesStream (modelApiManager.ts lines
213-240): like runBatch but additionally emits one onProgress event
per iteration, on the success and on the failure path alike. -/
def runBatchStream (auth : Bool) (g : String) (total : Nat)
    (attempts : Nat → Except String StandardResponse)
    (uploads : Nat → String → UploadOutcome)
    (times : Nat → Nat) (stamps : Nat → String) :
    List Nat → Ledger →
      List StandardResponse × Nat × Ledger × List Event × List StreamEvent
  | [], st => ([], 0, st, [], [])
  | i :: rest, st =>
    let step := generateItem auth g (attempts i) (uploads i) (times i) (stamps i) st
    let tail := runBatchStream auth g total attempts uploads times stamps rest step.2.2.1
    (step.1 :: tail.1,
     (if step.2.1 then 1 else 0) + tail.2.1,
     tail.2.2.1,
     step.2.2.2 ++ tail.2.2.2.1,
     .progress step.1 i total :: tail.2.2.2.2)

/-- generateMultipleImagesStream (modelApiManager.ts lines 202-262):
count = streamRequest.count || request.count || DEFAULT_COUNT
sequential item generations, one onProgress per item, then one
onComplete with the aggregate response.  Nothing inside the outer try
throws (per-item errors are caught inside the loop), so no onError
event arises here. -/
def generateMultipleImagesStream (auth : Bool) (g : String)
    (attempts : Nat → Except String StandardResponse)
    (uploads : Nat → String → UploadOutcome)
    (times : Nat → Nat) (stamps : Nat → String)
    (streamCount? reqCount? : Option Nat) (st : Ledger) :
    Ledger × List Event × List StreamEvent :=
  let count := jsCount2 streamCount? reqCount?
  let run := runBatchStream auth g count attempts uploads times stamps
    (List.range count) st
  (run.2.2.1, run.2.2.2.1,
   run.2.2.2.2 ++
     [.complete
       { results := run.1,
         metadata :=
           { totalRequested := count,
             successful := (run.1.filter (fun r => r.success)).length,
             failed := run.2.1 } }])

/-- Credential check of the GPT4o adapter factory
(modelApiManager.ts lines 267 and 302):
modelConfig present with a truthy config_json.api_key. -/
def gpt4oCredsOk (mc : Option ModelConfig) : Bool :=
  match mc with
  | none => false
  | some c =>
    match c.config_json with
    | none => false
    | some j => strTruthy j.api_key

/-- Credential check of the Doubao adapter factory
(modelApiManager.ts lines 280 and 320): modelConfig present with
truthy config_json.api_key and config_json.api_secret. -/
def doubaoCredsOk (mc : Option ModelConfig) : Bool :=
  match mc with
  | none => false
  | some c =>
    match c.config_json with
    | none => false
    | some j => strTruthy j.api_key && strTruthy j.api_secret

/-- Error message thrown by the GPT4o adapter factory when the API
key is missing. -/
def gpt4oCredErrorMsg : String := "GPT4o 服务需要有效的 API 密钥配置"

/-- Error message thrown by the Doubao adapter factory when a
credential is missing. -/
def doubaoCredErrorMsg : String := "Doubao 服务需要有效的 API 密钥和密钥配置"

/-- generateFn built by generateImageWithGPT4o / the stream variant:
throws the credential error when the key is missing, otherwise
performs the provider call (its i-th outcome given by adapter i). -/
def gpt4oGenerateFn (mc : Option ModelConfig)
    (adapter : Nat → Except String StandardResponse) (i : Nat) :
    Except String StandardResponse :=
  if gpt4oCredsOk mc then adapter i else .error gpt4oCredErrorMsg

/-- generateFn built by generateImageWithDoubao / the stream
variant. -/
def doubaoGenerateFn (mc : Option ModelConfig)
    (adapter : Nat → Except String StandardResponse) (i : Nat) :
    Except String StandardResponse :=
  if doubaoCredsOk mc then adapter i else .error doubaoCredErrorMsg

/-- generateImageWithGPT4o (modelApiManager.ts lines 265-276). -/
def generateImageWithGPT4o (auth : Bool) (mc : Option ModelConfig)
    (adapter : Nat → Except String StandardResponse)
    (uploads : Nat → String → UploadOutcome)
    (times : Nat → Nat) (stamps : Nat → String)
    (count? : Option Nat) (st : Ledger) :
    GenerationResponse × Ledger × List Event :=
  generateMultipleImages auth "openai" (gpt4oGenerateFn mc adapter)
    uploads times stamps count? st

/-- generateImageWithDoubao (modelApiManager.ts lines 278-294). -/
def generateImageWithDoubao (auth : Bool) (mc : Option ModelConfig)
    (adapter : Nat → Except String StandardResponse)
    (uploads : Nat → String → UploadOutcome)
    (times : Nat → Nat) (stamps : Nat → String)
    (count? : Option Nat) (st : Ledger) :
    GenerationResponse × Ledger × List Event :=
  generateMultipleImages auth "doubao" (doubaoGenerateFn mc adapter)
    uploads times stamps count? st

/-- configs record of src/config/models.json: every group is
configured with maxConcurrent 2 and cooldownMs 1000. -/
def modelsJsonConfigs : List (String × GroupConfig) :=
  [("doubao", ⟨2, 1000⟩), ("openai", ⟨2, 1000⟩), ("cogview", ⟨2, 1000⟩),
   ("tongyi", ⟨2, 1000⟩), ("jimeng", ⟨2, 1000⟩)]

/-- getGroupConfig (src/config/modelsLoader.ts lines 32-35): the
property access config.configs[group], which yields the group's
configuration when the key is present and the absent value
(undefined) otherwise; the function body cannot throw. -/
def getGroupConfig (group : String) : Option GroupConfig :=
  (modelsJsonConfigs.find? (fun p => p.1 = group)).map (fun p => p.2)

/-- models list of src/config/models.json (id, name, category,
group of each entry). -/
def modelsJsonModels : List ImageModel :=
  [⟨"doubao-seedream-3-0-t2i-250415", "豆包通用3.0", "豆包", "doubao"⟩,
   ⟨"high_aes_general_v21_L", "豆包通用2.1", "豆包", "doubao"⟩,
   ⟨"high_aes_general_v20_L", "豆包通用2.0Pro", "豆包", "doubao"⟩,
   ⟨"high_aes_general_v20", "豆包通用2.0", "豆包", "doubao"⟩,
   ⟨"high_aes_general_v14", "豆包通用1.4", "豆包", "doubao"⟩,
   ⟨"t2i_xl_sft", "豆包通用XL Pro", "豆包", "doubao"⟩,
   ⟨"gpt_4o", "GPT-4o-Image", "OpenAI", "openai"⟩,
   ⟨"cogView-4-250304", "CogView-4", "智谱", "cogview"⟩,
   ⟨"wanx2.0-t2i-turbo", "通义万相2.0-文生图-Turbo", "通义万相", "tongyi"⟩,
   ⟨"wanx2.1-t2i-turbo", "通义万相2.1-文生图-Turbo", "通义万相", "tongyi"⟩,
   ⟨"wanx2.1-t2i-plus", "通义万相2.1-文生图-Plus", "通义万相", "tongyi"⟩,
   ⟨"jimeng_high_aes_general_v21_L", "即梦文生图2.1", "即梦", "jimeng"⟩]

/-- getModelById (src/services/model/modelManager.ts lines 62-64). -/
def getModelById (models : List ImageModel) (id : String) : Option ImageModel :=
  models.find? (fun m => m.id = id)

/-- getModelStatus (src/services/model/modelManager.ts lines
110-138), reduced to its routing-relevant content: the resolved model
when available, or the error message otherwise. -/
def getModelStatus (models : List ImageModel)
    (configs : String → Option GroupConfig) (modelId : String) :
    Except String ImageModel :=
  match getModelById models modelId with
  | none => .error ("模型不存在: " ++ modelId)
  | some model =>
    match configs model.group with
    | none => .error ("模型组配置不存在: " ++ model.group)
    | some _ => .ok model

/-- generateImage (modelApiManager.ts lines 404-445), aggregate
routing: resolve the model, then switch on its provider group; the
openai and doubao cases run the corresponding batch call, the
cogview, tongyi and jimeng cases throw the 暂不支持 error naming the
category, and any other group throws the 不支持的模型组 error.  A
thrown error is the error branch; it leaves the ledger untouched and
performs no adapter call. -/
def generateImage (models : List ImageModel)
    (configs : String → Option GroupConfig)
    (auth : Bool) (mc : Option ModelConfig)
    (gptAdapter doubaoAdapter : Nat → Except String StandardResponse)
    (uploads : Nat → String → UploadOutcome)
    (times : Nat → Nat) (stamps : Nat → String)
    (modelId : String) (count? : Option Nat) (st : Ledger) :
    Except String GenerationResponse × Ledger × List Event :=
  match getModelStatus models configs modelId with
  | .error e => (.error e, st, [])
  | .ok model =>
    if model.group = "openai" then
      let run := generateImageWithGPT4o auth mc gptAdapter uploads times stamps count? st
      (.ok run.1, run.2.1, run.2.2)
    else if model.group = "doubao" then
      let run := generateImageWithDoubao auth mc doubaoAdapter uploads times stamps count? st
      (.ok run.1, run.2.1, run.2.2)
    else if model.group = "cogview" ∨ model.group = "tongyi" ∨ model.group = "jimeng" then
      (.error ("暂不支持 " ++ model.category ++ " 模型组"), st, [])
    else
      (.error ("不支持的模型组: " ++ model.group), st, [])

/-- generateImageStream (modelApiManager.ts lines 340-398), streaming
routing: same resolution and switch as generateImage, but a pre-flight
failure or an unimplemented group is reported through a single onError
event instead of a thrown error. -/
def generateImageStream (models : List ImageModel)
    (configs : String → Option GroupConfig)
    (auth : Bool) (mc : Option ModelConfig)
    (gptAdapter doubaoAdapter : Nat → Except String StandardResponse)
    (uploads : Nat → String → UploadOutcome)
    (times : Nat → Nat) (stamps : Nat → String)
    (modelId : String) (streamCount? reqCount? : Option Nat) (st : Ledger) :
    Ledger × List Event × List StreamEvent :=
  match getModelStatus models configs modelId with
  | .error e => (st, [], [.error e])
  | .ok model =>
    if model.group = "openai" then
      generateMultipleImagesStream auth "openai" (gpt4oGenerateFn mc gptAdapter)
        uploads times stamps streamCount? reqCount? st
    else if model.group = "doubao" then
      generateMultipleImagesStream auth "doubao" (doubaoGenerateFn mc doubaoAdapter)
        uploads times stamps streamCount? reqCount? st
    else if model.group = "cogview" ∨ model.group = "tongyi" ∨ model.group = "jimeng" then
      (st, [], [.error ("暂不支持 " ++ model.category ++ " 模型组")])
    else
      (st, [], [.error ("不支持的模型组: " ++ model.group)])

/-- Phase of one executeRequest task against a fixed provider group,
as resolved by the event loop: checking is the admission poll inside
waitForServiceAvailability; admitted is the window after the final
poll observed availability and waitForServiceAvailability returned,
but before the continuation of the await on line 127 has run the
increment on line 130 (this window exists because the await resumes
as a separate microtask); running is incremented-but-not-yet-
decremented; done is after the finally-decrement. -/
inductive TaskPhase where
  | checking
  | admitted
  | running
  | done
  deriving DecidableEq, Repr

/-- Global state of several concurrent executeRequest calls against
one provider group: the phase of each task, the group's
activeRequests counter, its lastRequestTime, and the clock. -/
structure ConcState where
  phases : List TaskPhase
  active : Int
  lastTime : Nat
  now : Nat
  deriving DecidableEq, Repr

/-- Event-loop interleaving of the admission protocol
(modelApiManager.ts lines 98-131) for one provider group with
configuration cfg.  The observe step is the successful poll of
waitForServiceAvailability (lines 107-108): it requires both
admission conditions but changes no ledger state.  The commit step is
the resumed continuation in executeRequest (lines 130-131): it
increments activeRequests and stamps lastRequestTime without
re-checking the conditions, exactly as the source does.  The finish
step is the finally-decrement (line 138).  The tick step advances
Date.now. -/
inductive ConcStep (cfg : GroupConfig) : ConcState → ConcState → Prop where
  | observe (i : Nat) (s : ConcState)
      (hphase : s.phases.get? i = some .checking)
      (hcap : s.active < (cfg.maxConcurrent : Int))
      (hcool : s.now - s.lastTime ≥ cfg.cooldownMs) :
      ConcStep cfg s { s with phases := s.phases.set i .admitted }
  | commit (i : Nat) (s : ConcState)
      (hphase : s.phases.get? i = some .admitted) :
      ConcStep cfg s
        { s with phases := s.phases.set i .running,
                 active := s.active + 1,
                 lastTime := s.now }
  | finish (i : Nat) (s : ConcState)
      (hphase : s.phases.get? i = some .running) :
      ConcStep cfg s
        { s with phases := s.phases.set i .done,
                 active := s.active - 1 }
  | tick (d : Nat) (s : ConcState) :
      ConcStep cfg s { s with now := s.now + d }

/-- Reachability under the event-loop interleaving. -/
def concReach (cfg : GroupConfig) : ConcState → ConcState → Prop :=
  Relation.ReflTransGen (ConcStep cfg)

/-- Three executeRequest calls all polling a group that currently has
no in-flight request and whose cooldown has elapsed. -/
def raceInit : ConcState :=
  { phases := [.checking, .checking, .checking],
    active := 0, lastTime := 0, now := 2000 }

/-- State after the interleaving observe 0, observe 1, observe 2,
commit 0, commit 1: two tasks in flight, the third still holding its
stale availability observation. -/
def racePenultimate : ConcState :=
  { phases := [.running, .running, .admitted],
    active := 2, lastTime := 2000, now := 2000 }

/-- State after the interleaving observe 0, observe 1, observe 2,
commit 0, commit 1, commit 2: all three tasks are in flight at
once. -/
def raceFinal : ConcState :=
  { phases := [.running, .running, .running],
    active := 3, lastTime := 2000, now := 2000 }

/-- Closed form of the per-item result of one batch-loop iteration:
it does not depend on the ledger, only on the auth outcome, the
adapter outcome, the re-hosting behaviour and the timestamp. -/
def itemResult (auth : Bool) (attempt : Except String StandardResponse)
    (upload : String → UploadOutcome) (ts : String) : StandardResponse :=
  if auth then
    match attempt with
    | .ok r => { uploadToStorageIfNeeded upload r with createdAt := some ts }
    | .error e => mkErrorResult e ts
  else mkErrorResult "AUTH_REQUIRED" ts

/-- Whether one batch-loop iteration pushes into the errors list:
exactly when the dispatch throws (auth failure or adapter error). -/
def itemThrew (auth : Bool) (attempt : Except String StandardResponse) : Bool :=
  if auth then
    match attempt with
    | .ok _ => false
    | .error _ => true
  else true

/-- Indices of the onProgress events of a stream-event list, in
emission order. -/
def progressIndices : List StreamEvent → List Nat
  | [] => []
  | .progress _ i _ :: rest => i :: progressIndices rest
  | .complete _ :: rest => progressIndices rest
  | .error _ :: rest => progressIndices rest

/-- Incrementing and then decrementing a counter map restores it. -/
theorem bumpCounter_cancel (f : String → Int) (g : String) :
    bumpCounter (bumpCounter f g 1) g (-1) = f := by
  funext x
  by_cases h : x = g
  · subst h; simp [bumpCounter]
  · simp [bumpCounter, h]

/-- Closed form of an authenticated dispatch: the adapter outcome is
passed through unchanged, activeRequests is restored by the
finally-decrement, lastRequestTime is stamped, and the event list
shows exactly one increment, one adapter call and one decrement. -/
theorem executeRequest_true (g : String) (now : Nat)
    (req : Except String StandardResponse) (st : Ledger) :
    executeRequest true g now req st =
      (req, ⟨st.activeRequests, setTime st.lastRequestTime g now⟩,
       [.incr g, .adapterCall g, .decr g]) := by
  simp [executeRequest, bumpCounter_cancel]

/-- Closed form of one batch-loop iteration. -/
theorem generateItem_eq (auth : Bool) (g : String)
    (attempt : Except String StandardResponse)
    (upload : String → UploadOutcome) (now : Nat) (ts : String)
    (st : Ledger) :
    generateItem auth g attempt upload now ts st =
      (itemResult auth attempt upload ts,
       itemThrew auth attempt,
       (if auth then
          (⟨st.activeRequests, setTime st.lastRequestTime g now⟩ : Ledger)
        else st),
       if auth then [.incr g, .adapterCall g, .decr g] else []) := by
  cases auth
  · simp [generateItem, executeRequest, itemResult, itemThrew]
  · cases attempt <;>
      simp [generateItem, executeRequest_true, itemResult, itemThrew]

/-- Results of the aggregate batch loop: one slot per item index, in
request order, each the closed-form per-item result. -/
theorem runBatch_results (auth : Bool) (g : String)
    (attempts : Nat → Except String StandardResponse)
    (uploads : Nat → String → UploadOutcome)
    (times : Nat → Nat) (stamps : Nat → String)
    (is : List Nat) (st : Ledger) :
    (runBatch auth g attempts uploads times stamps is st).1 =
      is.map (fun i => itemResult auth (attempts i) (uploads i) (stamps i)) := by
  induction is generalizing st with
  | nil => simp [runBatch]
  | cons i rest ih => simp [runBatch, generateItem_eq, ih]

/-- Error count of the aggregate batch loop. -/
theorem runBatch_errors (auth : Bool) (g : String)
    (attempts : Nat → Except String StandardResponse)
    (uploads : Nat → String → UploadOutcome)
    (times : Nat → Nat) (stamps : Nat → String)
    (is : List Nat) (st : Ledger) :
    (runBatch auth g attempts uploads times stamps is st).2.1 =
      is.countP (fun i => itemThrew auth (attempts i)) := by
  induction is generalizing st with
  | nil => simp [runBatch]
  | cons i rest ih =>
    simp [runBatch, generateItem_eq, ih, List.countP_cons]
    omega

/-- The aggregate batch loop restores the activeRequests map. -/
theorem runBatch_active (auth : Bool) (g : String)
    (attempts : Nat → Except String StandardResponse)
    (uploads : Nat → String → UploadOutcome)
    (times : Nat → Nat) (stamps : Nat → String)
    (is : List Nat) (st : Ledger) :
    (runBatch auth g attempts uploads times stamps is st).2.2.1.activeRequests =
      st.activeRequests := by
  induction is generalizing st with
  | nil => simp [runBatch]
  | cons i rest ih => cases auth <;> simp [runBatch, generateItem_eq, ih]

/-- Results of the streaming batch loop. -/
theorem runBatchStream_results (auth : Bool) (g : String) (total : Nat)
    (attempts : Nat → Except String StandardResponse)
    (uploads : Nat → String → UploadOutcome)
    (times : Nat → Nat) (stamps : Nat → String)
    (is : List Nat) (st : Ledger) :
    (runBatchStream auth g total attempts uploads times stamps is st).1 =
      is.map (fun i => itemResult auth (attempts i) (uploads i) (stamps i)) := by
  induction is generalizing st with
  | nil => simp [runBatchStream]
  | cons i rest ih => simp [runBatchStream, generateItem_eq, ih]

/-- Error count of the streaming batch loop. -/
theorem runBatchStream_errors (auth : Bool) (g : String) (total : Nat)
    (attempts : Nat → Except String StandardResponse)
    (uploads : Nat → String → UploadOutcome)
    (times : Nat → Nat) (stamps : Nat → String)
    (is : List Nat) (st : Ledger) :
    (runBatchStream auth g total attempts uploads times stamps is st).2.1 =
      is.countP (fun i => itemThrew auth (attempts i)) := by
  induction is generalizing st with
  | nil => simp [runBatchStream]
  | cons i rest ih =>
    simp [runBatchStream, generateItem_eq, ih, List.countP_cons]
    omega

/-- The streaming batch loop restores the activeRequests map. -/
theorem runBatchStream_active (auth : Bool) (g : String) (total : Nat)
    (attempts : Nat → Except String StandardResponse)
    (uploads : Nat → String → UploadOutcome)
    (times : Nat → Nat) (stamps : Nat → String)
    (is : List Nat) (st : Ledger) :
    (runBatchStream auth g total attempts uploads times stamps is st).2.2.1.activeRequests =
      st.activeRequests := by
  induction is generalizing st with
  | nil => simp [runBatchStream]
  | cons i rest ih => cases auth <;> simp [runBatchStream, generateItem_eq, ih]

/-- onProgress events of the streaming batch loop: one per item
index, in request order, carrying the per-item result. -/
theorem runBatchStream_events (auth : Bool) (g : String) (total : Nat)
    (attempts : Nat → Except String StandardResponse)
    (uploads : Nat → String → UploadOutcome)
    (times : Nat → Nat) (stamps : Nat → String)
    (is : List Nat) (st : Ledger) :
    (runBatchStream auth g total attempts uploads times stamps is st).2.2.2.2 =
      is.map (fun i =>
        StreamEvent.progress
          (itemResult auth (attempts i) (uploads i) (stamps i)) i total) := by
  induction is generalizing st with
  | nil => simp [runBatchStream]
  | cons i rest ih => simp [runBatchStream, generateItem_eq, ih]

/-- progressIndices distributes over append. -/
theorem progressIndices_append (xs ys : List StreamEvent) :
    progressIndices (xs ++ ys) = progressIndices xs ++ progressIndices ys := by
  induction xs with
  | nil => rfl
  | cons x rest ih => cases x <;> simp [progressIndices, ih]

/-- progressIndices of a pure onProgress sequence recovers the index
list. -/
theorem progressIndices_map (f : Nat → StandardResponse) (total : Nat)
    (is : List Nat) :
    progressIndices (is.map (fun i => StreamEvent.progress (f i) i total)) = is := by
  induction is with
  | nil => rfl
  | cons i rest ih => simp [progressIndices, ih]

/-- A list counts every element when the predicate holds
everywhere. -/
theorem countP_eq_length_of_true (is : List Nat) (p : Nat → Bool)
    (h : ∀ i, p i = true) : is.countP p = is.length := by
  induction is with
  | nil => rfl
  | cons i rest ih => simp [List.countP_cons, h, ih]

/-- Filtering for success over a list of failed results keeps
nothing. -/
theorem filter_success_map_error (msg : String) (stamps : Nat → String)
    (is : List Nat) :
    ((is.map (fun i => mkErrorResult msg (stamps i))).filter
        (fun r => r.success)).length = 0 := by
  induction is with
  | nil => rfl
  | cons i rest ih => simp [mkErrorResult, ih]

/-- C5: for every dispatched item of a provider group, activeRequests
is incremented exactly once at dispatch start and decremented exactly
once when the item completes, whether the adapter succeeds or throws
(the event list of an authenticated dispatch is exactly one
increment, one adapter call and one decrement); consequently a fully
completed generateMultipleImages or generateMultipleImagesStream call
leaves the activeRequests map exactly as it found it. -/
theorem c5_activeRequests_balanced :
    (∀ (g : String) (now : Nat) (req : Except String StandardResponse) (st : Ledger),
        (executeRequest true g now req st).2.2 =
          [Event.incr g, Event.adapterCall g, Event.decr g] ∧
        (executeRequest true g now req st).2.1.activeRequests = st.activeRequests) ∧
    (∀ (auth : Bool) (g : String)
        (attempts : Nat → Except String StandardResponse)
        (uploads : Nat → String → UploadOutcome)
        (times : Nat → Nat) (stamps : Nat → String)
        (count? : Option Nat) (st : Ledger),
        (generateMultipleImages auth g attempts uploads times stamps count? st).2.1.activeRequests
          = st.activeRequests) ∧
    (∀ (auth : Bool) (g : String)
        (attempts : Nat → Except String StandardResponse)
        (uploads : Nat → String → UploadOutcome)
        (times : Nat → Nat) (stamps : Nat → String)
        (sc rc : Option Nat) (st : Ledger),
        (generateMultipleImagesStream auth g attempts uploads times stamps sc rc st).1.activeRequests
          = st.activeRequests) := by
  refine ⟨fun g now req st => ⟨?_, ?_⟩,
          fun auth g a u t s c st => ?_,
          fun auth g a u t s sc rc st => ?_⟩
  · simp [executeRequest_true]
  · simp [executeRequest_true]
  · simp [generateMultipleImages, runBatch_active]
  · simp [generateMultipleImagesStream, runBatchStream_active]

/-- C6: for an adapter result with success true and image URL X, a
failed or throwing re-hosting collaborator leaves success true and
imageUrl equal to the original X while appending an explanatory note
to the message; a successful re-hosting replaces imageUrl with the
durable URL. -/
theorem c6_rehosting_graceful (r : StandardResponse) (x : String)
    (up : String → UploadOutcome)
    (hs : r.success = true) (hu : r.imageUrl = some x) (hx : x ≠ "") :
    (up x = UploadOutcome.failed ∨ up x = UploadOutcome.exn →
      (uploadToStorageIfNeeded up r).success = true ∧
      (uploadToStorageIfNeeded up r).imageUrl = some x ∧
      ((uploadToStorageIfNeeded up r).message =
          some ((r.message.getD "") ++ "（存储上传失败，使用原始链接）") ∨
       (uploadToStorageIfNeeded up r).message =
          some ((r.message.getD "") ++ "（存储上传异常，使用原始链接）"))) ∧
    (∀ u, up x = UploadOutcome.ok u →
      (uploadToStorageIfNeeded up r).success = true ∧
      (uploadToStorageIfNeeded up r).imageUrl = some u ∧
      (uploadToStorageIfNeeded up r).message =
        some ((r.message.getD "") ++ "（已保存到存储）")) := by
  constructor
  · rintro (h | h) <;> simp [uploadToStorageIfNeeded, hu, hs, hx, h]
  · intro u h
    simp [uploadToStorageIfNeeded, hu, hs, hx, h]

/-- Witness for C6 at a concrete result and a failing collaborator. -/
theorem c6_rehosting_graceful_witness :
    ({ success := true, imageUrl := some "http://tmp/a.png",
       message := some "ok" } : StandardResponse).success = true ∧
    (uploadToStorageIfNeeded (fun _ => UploadOutcome.failed)
        { success := true, imageUrl := some "http://tmp/a.png",
          message := some "ok" }).imageUrl = some "http://tmp/a.png" := by
  refine ⟨rfl, ?_⟩
  exact ((c6_rehosting_graceful
    { success := true, imageUrl := some "http://tmp/a.png", message := some "ok" }
    "http://tmp/a.png" (fun _ => UploadOutcome.failed)
    rfl rfl (by decide)).1 (Or.inl rfl)).2.1

/-- C8: a stream call with count 3 whose adapter attempts yield
success, failure, success produces onProgress events at indices
0, 1, 2 with success flags true, false, true, followed by exactly one
onComplete whose metadata is totalRequested 3, successful 2,
failed 1. -/
theorem c8_stream_alternating_scenario :
    (generateMultipleImagesStream true "openai"
      (fun i => if i = 1 then Except.error "网络错误"
                else Except.ok { success := true, text := some "img" })
      (fun _ _ => UploadOutcome.failed) (fun _ => 0) (fun _ => "T")
      (some 3) none ⟨fun _ => 0, fun _ => 0⟩).2.2 =
      [StreamEvent.progress
         { success := true, text := some "img", createdAt := some "T" } 0 3,
       StreamEvent.progress (mkErrorResult "网络错误" "T") 1 3,
       StreamEvent.progress
         { success := true, text := some "img", createdAt := some "T" } 2 3,
       StreamEvent.complete
         { results :=
             [{ success := true, text := some "img", createdAt := some "T" },
              mkErrorResult "网络错误" "T",
              { success := true, text := some "img", createdAt := some "T" }],
           metadata := { totalRequested := 3, successful := 2, failed := 1 } }] := by
  rfl

/-- C9 counterexample: looking up the admission configuration of an
unknown provider group returns the absent value (undefined), it does
not raise a configuration error — the body of getGroupConfig is the
plain property access config.configs[group]. -/
theorem c9_counterexample : getGroupConfig "flux" = none := by rfl

/-- C9 amended: getGroupConfig returns the admission configuration
for each of the five statically configured groups and the absent
value (undefined) for every other group; no configuration error is
raised. -/
theorem c9_group_config_lookup :
    (∀ g : String,
      getGroupConfig g = none ↔
        ¬ (g = "doubao" ∨ g = "openai" ∨ g = "cogview" ∨
           g = "tongyi" ∨ g = "jimeng")) ∧
    getGroupConfig "doubao" = some ⟨2, 1000⟩ ∧
    getGroupConfig "openai" = some ⟨2, 1000⟩ ∧
    getGroupConfig "cogview" = some ⟨2, 1000⟩ ∧
    getGroupConfig "tongyi" = some ⟨2, 1000⟩ ∧
    getGroupConfig "jimeng" = some ⟨2, 1000⟩ := by
  refine ⟨fun g => ?_, rfl, rfl, rfl, rfl, rfl⟩
  by_cases h1 : g = "doubao"
  · subst h1; decide
  by_cases h2 : g = "openai"
  · subst h2; decide
  by_cases h3 : g = "cogview"
  · subst h3; decide
  by_cases h4 : g = "tongyi"
  · subst h4; decide
  by_cases h5 : g = "jimeng"
  · subst h5; decide
  simp [getGroupConfig, modelsJsonConfigs, List.find?, eq_comm, h1, h2, h3, h4, h5]

/-- C10: a requested count of 0 is JavaScript-falsy and so coerced to
the default of 1: the dispatcher behaves exactly as if count were
absent, performing one item generation and reporting
totalRequested 1, in aggregate mode and for either count slot of
stream mode. -/
theorem c10_zero_count_defaults :
    (∀ (auth : Bool) (g : String)
        (attempts : Nat → Except String StandardResponse)
        (uploads : Nat → String → UploadOutcome)
        (times : Nat → Nat) (stamps : Nat → String) (st : Ledger),
        generateMultipleImages auth g attempts uploads times stamps (some 0) st =
          generateMultipleImages auth g attempts uploads times stamps none st) ∧
    (∀ (auth : Bool) (g : String)
        (attempts : Nat → Except String StandardResponse)
        (uploads : Nat → String → UploadOutcome)
        (times : Nat → Nat) (stamps : Nat → String) (st : Ledger),
        (generateMultipleImages auth g attempts uploads times stamps (some 0) st).1.metadata.totalRequested = 1 ∧
        (generateMultipleImages auth g attempts uploads times stamps (some 0) st).1.results.length = 1) ∧
    (∀ (auth : Bool) (g : String)
        (attempts : Nat → Except String StandardResponse)
        (uploads : Nat → String → UploadOutcome)
        (times : Nat → Nat) (stamps : Nat → String)
        (rc : Option Nat) (st : Ledger),
        generateMultipleImagesStream auth g attempts uploads times stamps (some 0) rc st =
          generateMultipleImagesStream auth g attempts uploads times stamps none rc st) ∧
    (∀ (auth : Bool) (g : String)
        (attempts : Nat → Except String StandardResponse)
        (uploads : Nat → String → UploadOutcome)
        (times : Nat → Nat) (stamps : Nat → String)
        (sc : Option Nat) (st : Ledger),
        generateMultipleImagesStream auth g attempts uploads times stamps sc (some 0) st =
          generateMultipleImagesStream auth g attempts uploads times stamps sc none st) := by
  refine ⟨fun _ _ _ _ _ _ _ => rfl,
          fun auth g a u t s st => ⟨rfl, ?_⟩,
          fun _ _ _ _ _ _ _ _ => rfl,
          fun _ _ _ _ _ _ _ _ => rfl⟩
  simp [generateMultipleImages, runBatch_results, jsCount, jsOrNat, DEFAULT_COUNT]

/-- C1: a batch call with requested count N ≥ 1 resolves with exactly
N result slots, the i-th slot being the outcome of the i-th requested
item (request order, failures kept in their own slot), and in stream
mode exactly N onProgress events occur, with indices 0..N-1 in
increasing order, also when every item fails. -/
theorem c1_batch_completeness (N : Nat) (hN : 1 ≤ N)
    (auth : Bool) (g : String)
    (attempts : Nat → Except String StandardResponse)
    (uploads : Nat → String → UploadOutcome)
    (times : Nat → Nat) (stamps : Nat → String)
    (rc : Option Nat) (st st2 : Ledger) :
    (generateMultipleImages auth g attempts uploads times stamps (some N) st).1.results =
      (List.range N).map
        (fun i => itemResult auth (attempts i) (uploads i) (stamps i)) ∧
    (generateMultipleImages auth g attempts uploads times stamps (some N) st).1.results.length = N ∧
    progressIndices
      (generateMultipleImagesStream auth g attempts uploads times stamps (some N) rc st2).2.2 =
      List.range N := by
  have hN0 : N ≠ 0 := by omega
  have hcount : jsCount (some N) = N := by simp [jsCount, jsOrNat, hN0]
  have hcount2 : jsCount2 (some N) rc = N := by simp [jsCount2, jsOrNat, hN0]
  refine ⟨?_, ?_, ?_⟩
  · simp [generateMultipleImages, runBatch_results, hcount]
  · simp [generateMultipleImages, runBatch_results, hcount]
  · simp [generateMultipleImagesStream, hcount2, runBatchStream_events,
      progressIndices_append, progressIndices_map, progressIndices]

/-- Witness for C1 at N = 2 with an adapter that always throws. -/
theorem c1_batch_completeness_witness :
    1 ≤ 2 ∧
    (generateMultipleImages true "openai" (fun _ => Except.error "boom")
        (fun _ _ => UploadOutcome.failed) (fun _ => 0) (fun _ => "T")
        (some 2) ⟨fun _ => 0, fun _ => 0⟩).1.results.length = 2 :=
  ⟨by decide,
   (c1_batch_completeness 2 (by decide) true "openai"
      (fun _ => Except.error "boom") (fun _ _ => UploadOutcome.failed)
      (fun _ => 0) (fun _ => "T") none
      ⟨fun _ => 0, fun _ => 0⟩ ⟨fun _ => 0, fun _ => 0⟩).2.1⟩

/-- C3 counterexample: with an unauthenticated caller, the aggregate
call on the gpt_4o model is not rejected — it resolves with one
per-item failed result slot carrying AUTH_REQUIRED, contradicting the
claim that the whole operation fails with no per-item results
produced. -/
theorem c3_counterexample :
    (generateImage modelsJsonModels getGroupConfig false none
        (fun _ => Except.error "unused") (fun _ => Except.error "unused")
        (fun _ _ => UploadOutcome.failed) (fun _ => 0) (fun _ => "T")
        "gpt_4o" (some 1) ⟨fun _ => 0, fun _ => 0⟩).1 =
      Except.ok
        { results := [mkErrorResult "AUTH_REQUIRED" "T"],
          metadata := { totalRequested := 1, successful := 0, failed := 1 } } := by
  rfl

/-- C3 amended: when the caller is unauthenticated, each item
dispatch throws AUTH_REQUIRED and the per-item catch absorbs it: the
aggregate call resolves with count slots, all failed with error
AUTH_REQUIRED and none successful, and the stream call emits one
failed onProgress event per index followed by one onComplete — no
rejection and no onError. -/
theorem c3_unauthenticated_per_item :
    (∀ (g : String) (attempts : Nat → Except String StandardResponse)
        (uploads : Nat → String → UploadOutcome)
        (times : Nat → Nat) (stamps : Nat → String)
        (count? : Option Nat) (st : Ledger),
      (generateMultipleImages false g attempts uploads times stamps count? st).1 =
        { results := (List.range (jsCount count?)).map
            (fun i => mkErrorResult "AUTH_REQUIRED" (stamps i)),
          metadata := { totalRequested := jsCount count?, successful := 0,
                        failed := jsCount count? } }) ∧
    (∀ (g : String) (attempts : Nat → Except String StandardResponse)
        (uploads : Nat → String → UploadOutcome)
        (times : Nat → Nat) (stamps : Nat → String)
        (sc rc : Option Nat) (st : Ledger),
      (generateMultipleImagesStream false g attempts uploads times stamps sc rc st).2.2 =
        (List.range (jsCount2 sc rc)).map
          (fun i => StreamEvent.progress
            (mkErrorResult "AUTH_REQUIRED" (stamps i)) i (jsCount2 sc rc)) ++
        [StreamEvent.complete
          { results := (List.range (jsCount2 sc rc)).map
              (fun i => mkErrorResult "AUTH_REQUIRED" (stamps i)),
            metadata := { totalRequested := jsCount2 sc rc, successful := 0,
                          failed := jsCount2 sc rc } }]) := by
  have hthrew : ∀ (attempts : Nat → Except String StandardResponse) (n : Nat),
      (List.range n).countP (fun i => itemThrew false (attempts i)) = n := by
    intro attempts n
    rw [countP_eq_length_of_true]
    · simp
    · intro i; simp [itemThrew]
  constructor
  · intro g attempts uploads times stamps count? st
    simp only [generateMultipleImages, runBatch_results, runBatch_errors, hthrew]
    simp [itemResult, mkErrorResult]
  · intro g attempts uploads times stamps sc rc st
    simp only [generateMultipleImagesStream, runBatchStream_results,
      runBatchStream_errors, runBatchStream_events, hthrew]
    simp [itemResult, mkErrorResult]

/-- C4: against a supported provider with missing or incomplete
credentials, the credential error recurs per item and each item is
converted into a failed Standard Result with the error message
populated; the call is not aborted and still yields one result slot
per requested item. -/
theorem c4_missing_credentials_per_item (mc : Option ModelConfig)
    (adapter : Nat → Except String StandardResponse)
    (uploads : Nat → String → UploadOutcome)
    (times : Nat → Nat) (stamps : Nat → String)
    (count? : Option Nat) (st : Ledger) :
    (gpt4oCredsOk mc = false →
      (generateImageWithGPT4o true mc adapter uploads times stamps count? st).1 =
        { results := (List.range (jsCount count?)).map
            (fun i => mkErrorResult gpt4oCredErrorMsg (stamps i)),
          metadata := { totalRequested := jsCount count?, successful := 0,
                        failed := jsCount count? } }) ∧
    (doubaoCredsOk mc = false →
      (generateImageWithDoubao true mc adapter uploads times stamps count? st).1 =
        { results := (List.range (jsCount count?)).map
            (fun i => mkErrorResult doubaoCredErrorMsg (stamps i)),
          metadata := { totalRequested := jsCount count?, successful := 0,
                        failed := jsCount count? } }) := by
  constructor
  · intro hg
    have hthrewG : ∀ n : Nat,
        (List.range n).countP (fun i => itemThrew true (gpt4oGenerateFn mc adapter i)) = n := by
      intro n
      rw [countP_eq_length_of_true]
      · simp
      · intro i; simp [itemThrew, gpt4oGenerateFn, hg]
    simp only [generateImageWithGPT4o, generateMultipleImages,
      runBatch_results, runBatch_errors, hthrewG]
    simp [itemResult, gpt4oGenerateFn, hg, mkErrorResult]
  · intro hd
    have hthrewD : ∀ n : Nat,
        (List.range n).countP (fun i => itemThrew true (doubaoGenerateFn mc adapter i)) = n := by
      intro n
      rw [countP_eq_length_of_true]
      · simp
      · intro i; simp [itemThrew, doubaoGenerateFn, hd]
    simp only [generateImageWithDoubao, generateMultipleImages,
      runBatch_results, runBatch_errors, hthrewD]
    simp [itemResult, doubaoGenerateFn, hd, mkErrorResult]

/-- Witness for C4 at incomplete Doubao credentials (api_key present
and truthy, api_secret absent — a configuration whose GPT4o check
would even pass) with count 2, and at the wholly absent ModelConfig
for the GPT4o path. -/
theorem c4_missing_credentials_witness :
    doubaoCredsOk (some { config_json := some { api_key := some "k" } }) = false ∧
    (generateImageWithDoubao true
        (some { config_json := some { api_key := some "k" } })
        (fun _ => Except.ok { success := true })
        (fun _ _ => UploadOutcome.failed) (fun _ => 0) (fun _ => "T")
        (some 2) ⟨fun _ => 0, fun _ => 0⟩).1 =
      { results := [mkErrorResult doubaoCredErrorMsg "T",
                    mkErrorResult doubaoCredErrorMsg "T"],
        metadata := { totalRequested := 2, successful := 0, failed := 2 } } ∧
    gpt4oCredsOk none = false ∧
    (generateImageWithGPT4o true none (fun _ => Except.ok { success := true })
        (fun _ _ => UploadOutcome.failed) (fun _ => 0) (fun _ => "T")
        (some 2) ⟨fun _ => 0, fun _ => 0⟩).1 =
      { results := [mkErrorResult gpt4oCredErrorMsg "T",
                    mkErrorResult gpt4oCredErrorMsg "T"],
        metadata := { totalRequested := 2, successful := 0, failed := 2 } } :=
  ⟨rfl,
   (c4_missing_credentials_per_item
      (some { config_json := some { api_key := some "k" } })
      (fun _ => Except.ok { success := true })
      (fun _ _ => UploadOutcome.failed) (fun _ => 0) (fun _ => "T")
      (some 2) ⟨fun _ => 0, fun _ => 0⟩).2 rfl,
   rfl,
   (c4_missing_credentials_per_item none
      (fun _ => Except.ok { success := true })
      (fun _ _ => UploadOutcome.failed) (fun _ => 0) (fun _ => "T")
      (some 2) ⟨fun _ => 0, fun _ => 0⟩).1 rfl⟩

/-- C7: a model whose provider group is one of the stub groups
(cogview, tongyi, jimeng) makes generateImage reject with the 暂不支持
error (and generateImageStream report it through onError) with no
adapter invocation, no ledger event and the admission ledger
unchanged. -/
theorem c7_unsupported_group (models : List ImageModel)
    (configs : String → Option GroupConfig)
    (auth : Bool) (mc : Option ModelConfig)
    (ga da : Nat → Except String StandardResponse)
    (uploads : Nat → String → UploadOutcome)
    (times : Nat → Nat) (stamps : Nat → String)
    (modelId : String) (count? sc rc : Option Nat) (st : Ledger)
    (model : ImageModel)
    (hres : getModelStatus models configs modelId = Except.ok model)
    (hstub : model.group = "cogview" ∨ model.group = "tongyi" ∨
             model.group = "jimeng") :
    generateImage models configs auth mc ga da uploads times stamps
        modelId count? st =
      (Except.error ("暂不支持 " ++ model.category ++ " 模型组"), st, []) ∧
    generateImageStream models configs auth mc ga da uploads times stamps
        modelId sc rc st =
      (st, [], [StreamEvent.error ("暂不支持 " ++ model.category ++ " 模型组")]) := by
  have h1 : ¬ model.group = "openai" := by
    rcases hstub with h | h | h <;> simp [h]
  have h2 : ¬ model.group = "doubao" := by
    rcases hstub with h | h | h <;> simp [h]
  constructor
  · simp [generateImage, hres, h1, h2, hstub]
  · simp [generateImageStream, hres, h1, h2, hstub]

/-- Witness for C7 at the CogView model of the static registry. -/
theorem c7_unsupported_group_witness :
    getModelStatus modelsJsonModels getGroupConfig "cogView-4-250304" =
      Except.ok ⟨"cogView-4-250304", "CogView-4", "智谱", "cogview"⟩ ∧
    (generateImage modelsJsonModels getGroupConfig true none
        (fun _ => Except.error "unused") (fun _ => Except.error "unused")
        (fun _ _ => UploadOutcome.failed) (fun _ => 0) (fun _ => "T")
        "cogView-4-250304" none ⟨fun _ => 0, fun _ => 0⟩).1 =
      Except.error "暂不支持 智谱 模型组" := by
  refine ⟨rfl, ?_⟩
  have h := (c7_unsupported_group modelsJsonModels getGroupConfig true none
    (fun _ => Except.error "unused") (fun _ => Except.error "unused")
    (fun _ _ => UploadOutcome.failed) (fun _ => 0) (fun _ => "T")
    "cogView-4-250304" none none none ⟨fun _ => 0, fun _ => 0⟩
    ⟨"cogView-4-250304", "CogView-4", "智谱", "cogview"⟩
    rfl (Or.inl rfl)).1
  exact congrArg (fun t => t.1) h

/-- C2 (the code evaluated at the failing interleaving): because the
admission check of waitForServiceAvailability and the counter
increment of executeRequest are separated by an await, three
concurrent dispatches against the openai group (maxConcurrent 2,
cooldownMs 1000) can all observe availability before any of them
commits; the third commit then begins a dispatch although
activeRequests is no longer below maxConcurrent and no cooldown has
elapsed since the previous dispatch, and the reachable state has
three items incremented-but-not-yet-decremented. -/
theorem c2_admission_race :
    ∃ cfg, getGroupConfig "openai" = some cfg ∧
      concReach cfg raceInit racePenultimate ∧
      ConcStep cfg racePenultimate raceFinal ∧
      ¬ (racePenultimate.active < (cfg.maxConcurrent : Int)) ∧
      racePenultimate.now - racePenultimate.lastTime < cfg.cooldownMs ∧
      raceFinal.active = 3 ∧ (cfg.maxConcurrent : Int) < raceFinal.active := by
  refine ⟨⟨2, 1000⟩, rfl, ?_, ?_, by decide, by decide, rfl, by decide⟩
  · have h1 : ConcStep ⟨2, 1000⟩ raceInit
        ⟨[.admitted, .checking, .checking], 0, 0, 2000⟩ :=
      ConcStep.observe 0 raceInit (by decide) (by decide) (by decide)
    have h2 : ConcStep ⟨2, 1000⟩
        ⟨[.admitted, .checking, .checking], 0, 0, 2000⟩
        ⟨[.admitted, .admitted, .checking], 0, 0, 2000⟩ :=
      ConcStep.observe 1 _ (by decide) (by decide) (by decide)
    have h3 : ConcStep ⟨2, 1000⟩
        ⟨[.admitted, .admitted, .checking], 0, 0, 2000⟩
        ⟨[.admitted, .admitted, .admitted], 0, 0, 2000⟩ :=
      ConcStep.observe 2 _ (by decide) (by decide) (by decide)
    have h4 : ConcStep ⟨2, 1000⟩
        ⟨[.admitted, .admitted, .admitted], 0, 0, 2000⟩
        ⟨[.running, .admitted, .admitted], 1, 2000, 2000⟩ :=
      ConcStep.commit 0 _ (by decide)
    have h5 : ConcStep ⟨2, 1000⟩
        ⟨[.running, .admitted, .admitted], 1, 2000, 2000⟩
        racePenultimate :=
      ConcStep.commit 1 _ (by decide)
    exact Relation.ReflTransGen.head h1
      (Relation.ReflTransGen.head h2
        (Relation.ReflTransGen.head h3
          (Relation.ReflTransGen.head h4
            (Relation.ReflTransGen.single h5))))
  · exact ConcStep.commit 2 racePenultimate (by decide)

end DesignChat
